import Mathlib

/-
Verification of the appshots UI discovery engine against its specification.

The definitions below are a shallow embedding of the code in
src/appshots/explorer.py (in particular the Swift XCUITest source emitted by
generate_explorer_test), src/appshots/hybrid.py and
src/appshots/xctest_capture.py.  The live application the generated test
interacts with is modelled as an abstract world type `W` together with an
`AppModel` record of observation and transition functions; everything the
generated test itself computes (hashing, dedup bookkeeping, loop structure,
recovery) is translated directly from the source.
-/

namespace AppShots

/-- UTF-8 code units of a string, as naturals.  Mirrors Swift `content.utf8`
(the byte sequence iterated by the hash loop in `screenHash`). -/
def utf8Bytes (s : String) : List Nat :=
  (s.data.flatMap String.utf8EncodeChar).map (fun b => b.toNat)

/-- One step of the hash loop in `screenHash` (explorer.py, generated Swift line
`hash = ((hash << 5) &+ hash) &+ UInt64(c)`): UInt64 wrapping arithmetic is
modelled with explicit reduction modulo 2^64. -/
def djb2Step (h c : Nat) : Nat := (((h <<< 5) % 2 ^ 64 + h) % 2 ^ 64 + c) % 2 ^ 64

/-- The full hash loop of `screenHash`, starting from 5381. -/
def djb2 (bytes : List Nat) : Nat := bytes.foldl djb2Step 5381

/-- Swift `String(hash, radix: 16)`: lowercase base-16 rendering. -/
def natToHex (n : Nat) : String := String.mk (Nat.toDigits 16 n)

/-- `screenHash` of the generated explorer test (explorer.py lines 145-154),
as a function of the ordered static-text labels and button labels of the
current screen: take the first 20 static texts and first 10 button labels,
join them with a "|" separator, and hash the UTF-8 bytes. -/
def screenHashOfLabels (texts buttons : List String) : String :=
  natToHex (djb2 (utf8Bytes (String.intercalate "|" (texts.take 20 ++ buttons.take 10))))

/-- Observable attributes of one XCUIElement as the generated test reads them:
`exists`, `isHittable`, and `label`. -/
structure ElemInfo where
  elExists : Bool
  isHittable : Bool
  label : String
deriving DecidableEq

/-- Abstract model of the running application that the generated XCUITest
drives.  `W` is the state of the app's UI; each field models one XCUITest
query or interaction used by the generated ExplorerTests.swift.  The test can
only observe and act through these primitives. -/
structure AppModel (W : Type) where
  staticTextLabels : W → List String
  buttonInfos : W → List ElemInfo
  cellInfos : W → List ElemInfo
  tabBarButtons : W → List ElemInfo
  tapButton : W → Nat → W
  tapCell : W → Nat → W
  navBarFirstButton : W → ElemInfo
  tapNavBarFirstButton : W → W
  closeButton : W → ElemInfo
  tapCloseButton : W → W
  xmarkButton : W → ElemInfo
  tapXmarkButton : W → W
  swipeDown : W → W
  swipeLeft : W → W
  swipeRight : W → W
  relaunch : W → W

variable {W : Type}

/-- `screenHash(_ app:)` of the generated test: hash of the visible text
content (all static texts, all button labels, in index order, bounded inside
`screenHashOfLabels`). -/
def screenHash (m : AppModel W) (w : W) : String :=
  screenHashOfLabels (m.staticTextLabels w) ((m.buttonInfos w).map (fun b => b.label))

/-- `let maxScreens = 30` of the generated test. -/
def maxScreens : Nat := 30

/-- The mutable test-instance state of ExplorerTests: `seenHashes`,
`screenCount`, plus the list of screens actually saved to disk
(name of the screenshot/element-list files, paired with the fingerprint that
was current when they were saved). -/
structure EState where
  seenHashes : List String
  screenCount : Nat
  recorded : List (String × String)
deriving DecidableEq

/-- Test-instance state at `test_explore` start: empty seen set, zero count,
nothing saved. -/
def initialEState : EState := { seenHashes := [], screenCount := 0, recorded := [] }

/-- Swift `String(format: "%02d-%@", screenCount, context)`: the numeric part,
zero-padded to two digits. -/
def fmt2 (n : Nat) : String := if n < 10 then "0" ++ toString n else toString n

/-- `recordScreenIfNew` (generated test, explorer.py lines 260-272): hash the
current screen; refuse if the hash was already seen or the screen cap is
reached; otherwise insert the hash, increment the count, and save the
screenshot and element list under `%02d-context`. -/
def recordScreenIfNew (m : AppModel W) (w : W) (s : EState) (context : String) :
    EState × Bool :=
  let hash := screenHash m w
  if hash ∈ s.seenHashes then (s, false)
  else if maxScreens ≤ s.screenCount then (s, false)
  else
    let count := s.screenCount + 1
    ({ seenHashes := s.seenHashes ++ [hash],
       screenCount := count,
       recorded := s.recorded ++ [(fmt2 count ++ "-" ++ context, hash)] }, true)

/-- `tryGoBack` (generated test, explorer.py lines 234-258): tap the first
navigation-bar button if present and hittable; else a "Close" button; else an
"xmark" button; else swipe down.  The `sleep` calls are timing only and have
no counterpart in the model. -/
def tryGoBack (m : AppModel W) (w : W) : W :=
  let backBtn := m.navBarFirstButton w
  if backBtn.elExists && backBtn.isHittable then m.tapNavBarFirstButton w
  else
    let closeBtn := m.closeButton w
    if closeBtn.elExists && closeBtn.isHittable then m.tapCloseButton w
    else
      let xBtn := m.xmarkButton w
      if xBtn.elExists && xBtn.isHittable then m.tapXmarkButton w
      else m.swipeDown w

/-- The recovery block that `exploreCurrentScreen` runs after returning from a
child screen (explorer.py lines 357-365 and 385-391): `tryGoBack`, then
compare the observed fingerprint with the one captured at entry to the parent
screen; on mismatch terminate and relaunch the app.  The block saves nothing
and performs no further actions; the returned flag records whether the
relaunch branch was taken. -/
def recoverAfterChild (m : AppModel W) (w : W) (hashBefore : String) : W × Bool :=
  let w1 := tryGoBack m w
  if screenHash m w1 ≠ hashBefore then (m.relaunch w1, true) else (w1, false)

/-- `app.buttons.element(boundBy: i)`: out-of-range queries yield a
non-existing element. -/
def btnAt (m : AppModel W) (w : W) (i : Nat) : ElemInfo :=
  (m.buttonInfos w).getD i { elExists := false, isHittable := false, label := "" }

/-- `app.cells.element(boundBy: i)`, with the same out-of-range convention. -/
def cellAt (m : AppModel W) (w : W) (i : Nat) : ElemInfo :=
  (m.cellInfos w).getD i { elExists := false, isHittable := false, label := "" }

/-- `let skip = ["Back", "Cancel", "Done", "Close"]` of the button-collection
loop in `exploreCurrentScreen`. -/
def skipLabels : List String := ["Back", "Cancel", "Done", "Close"]

/-- The button-collection loop of `exploreCurrentScreen` (explorer.py lines
322-332): indices below `min(app.buttons.count, max_actions)` whose element
exists, is hittable, has a non-empty label, and whose label is not in the skip
list, paired with their labels. -/
def collectButtonLabels (m : AppModel W) (w : W) (maxActions : Nat) :
    List (Nat × String) :=
  (List.range (min (m.buttonInfos w).length maxActions)).filterMap (fun i =>
    let b := btnAt m w i
    if b.elExists && b.isHittable && !(b.label == "") && !(skipLabels.contains b.label)
    then some (i, b.label) else none)

/-- The screenshot-context sanitizer of the button branch: replace spaces and
slashes by "-", then keep the first 30 characters. -/
def btnSafeName (label : String) : String :=
  ((label.replace " " "-").replace "/" "-").take 30

/-- The screenshot-context sanitizer of the cell branch: keep the first 30
characters, then replace spaces by "-" (the order differs from the button
branch in the source). -/
def cellSafeName (label : String) : String :=
  (label.take 30).replace " " "-"

/-- Loop state of the two candidate loops in `exploreCurrentScreen`: current
world, test state, and whether a `return` statement has fired (the in-loop
screen-cap guard exits the whole function, skipping the remaining candidates
and the cell loop). -/
structure Frame (W : Type) where
  w : W
  s : EState
  early : Bool

/-- One iteration of the button loop of `exploreCurrentScreen` (explorer.py
lines 335-367).  `recurse` is the recursive call `exploreCurrentScreen(app,
depth: depth + 1, maxDepth: maxDepth)`.  Guard the screen cap (a failure
`return`s from the whole function), re-read the button by index, skip it if
gone or unhittable, tap it, and if the fingerprint changed against the hash
captured at screen entry: record the screen, recurse, then run the recovery
block. -/
def buttonStep (m : AppModel W) (recurse : W → EState → W × EState)
    (hashBefore : String) (fr : Frame W) (item : Nat × String) : Frame W :=
  if fr.early then fr
  else if maxScreens ≤ fr.s.screenCount then { w := fr.w, s := fr.s, early := true }
  else
    let btn := btnAt m fr.w item.1
    if btn.elExists && btn.isHittable then
      let w1 := m.tapButton fr.w item.1
      let hashAfter := screenHash m w1
      if hashAfter ≠ hashBefore then
        let s2 := (recordScreenIfNew m w1 fr.s ("tap-" ++ btnSafeName item.2)).1
        let p := recurse w1 s2
        let r := recoverAfterChild m p.1 hashBefore
        { w := r.1, s := p.2, early := false }
      else { w := w1, s := fr.s, early := false }
    else fr

/-- One iteration of the cell loop of `exploreCurrentScreen` (explorer.py
lines 370-393).  Same shape as the button loop except that the label is read
from the current cell, there is no recursive call, and the sanitizer order
differs. -/
def cellStep (m : AppModel W) (hashBefore : String) (fr : Frame W) (i : Nat) :
    Frame W :=
  if fr.early then fr
  else if maxScreens ≤ fr.s.screenCount then { w := fr.w, s := fr.s, early := true }
  else
    let cell := cellAt m fr.w i
    if cell.elExists && cell.isHittable then
      let label := cell.label
      let w1 := m.tapCell fr.w i
      let hashAfter := screenHash m w1
      if hashAfter ≠ hashBefore then
        let s2 := (recordScreenIfNew m w1 fr.s ("cell-" ++ cellSafeName label)).1
        let r := recoverAfterChild m w1 hashBefore
        { w := r.1, s := s2, early := false }
      else { w := w1, s := fr.s, early := false }
    else fr

/-- `exploreCurrentScreen` (explorer.py lines 315-394) with an explicit fuel
argument carrying the structural recursion; the intended fuel is
`maxDepth - depth`, so that the `depth < maxDepth` guard, not the fuel,
decides every return (see `exploreCurrentScreen` below).  Guard depth and
screen cap, capture the entry fingerprint, run the button loop (recursing one
level deeper on fingerprint change), and, unless an in-loop cap guard
`return`ed, run the cell loop over `min(app.cells.count, 10)` cells of the
world the button loop left behind. -/
def exploreGo (m : AppModel W) (maxActions maxDepth : Nat) :
    Nat → Nat → W → EState → W × EState
  | 0, _, w, s => (w, s)
  | fuel + 1, depth, w, s =>
    if depth < maxDepth then
      if s.screenCount < maxScreens then
        let hashBefore := screenHash m w
        let fr1 := (collectButtonLabels m w maxActions).foldl
          (buttonStep m (fun w' s' => exploreGo m maxActions maxDepth fuel (depth + 1) w' s') hashBefore)
          { w := w, s := s, early := false }
        if fr1.early then (fr1.w, fr1.s)
        else
          let fr2 := (List.range (min (m.cellInfos fr1.w).length 10)).foldl
            (cellStep m hashBefore) { w := fr1.w, s := fr1.s, early := false }
          (fr2.w, fr2.s)
      else (w, s)
    else (w, s)

/-- `exploreCurrentScreen(app, depth:maxDepth:)`: the recursion of the source
always increases `depth` by one and stops at `maxDepth`, so `maxDepth - depth`
steps of fuel reproduce it exactly. -/
def exploreCurrentScreen (m : AppModel W) (maxActions maxDepth depth : Nat)
    (w : W) (s : EState) : W × EState :=
  exploreGo m maxActions maxDepth (maxDepth - depth) depth w s

/-- `test_explore` (explorer.py lines 276-313): launch (the launched world is
`w0`), record the initial screen, crawl at depth 0, then probe swipe-left and
(after a relaunch) swipe-right against the fingerprint observed after the
depth-0 crawl, crawling at depth 1 from either swipe that changed it. -/
def testExplore (m : AppModel W) (maxDepth maxActions : Nat) (w0 : W) :
    W × EState :=
  let s1 := (recordScreenIfNew m w0 initialEState "initial").1
  let p1 := exploreCurrentScreen m maxActions maxDepth 0 w0 s1
  let hashBefore := screenHash m p1.1
  let w2 := m.swipeLeft p1.1
  let p2 :=
    if screenHash m w2 ≠ hashBefore then
      let s' := (recordScreenIfNew m w2 p1.2 "swipe-left").1
      exploreCurrentScreen m maxActions maxDepth 1 w2 s'
    else (w2, p1.2)
  let w3 := m.relaunch p2.1
  let w4 := m.swipeRight w3
  if screenHash m w4 ≠ hashBefore then
    let s' := (recordScreenIfNew m w4 p2.2 "swipe-right").1
    exploreCurrentScreen m maxActions maxDepth 1 w4 s'
  else (w4, p2.2)

/-- A candidate action of the crawl, tagged by kind.  `tapTab`,
`swipeLeftProbe` and `swipeRightProbe` exist so that the enumeration order the
spec describes can be written down and compared with the code's. -/
inductive CandAction where
  | tapButton (idx : Nat) (label : String)
  | tapCell (idx : Nat)
  | tapTab (idx : Nat)
  | swipeLeftProbe
  | swipeRightProbe
deriving DecidableEq

/-- Whether a candidate action is a list-cell tap. -/
def CandAction.isTapCell : CandAction → Bool
  | .tapCell _ => true
  | _ => false

/-- The candidate actions `exploreCurrentScreen` enumerates on a screen `w`,
in the order its two loops visit them: the pre-collected button candidates
(hittable, non-empty label, label not in the skip list, among the first
`min(app.buttons.count, max_actions)` buttons), then the cell candidates
(hittable cells among the first `min(app.cells.count, 10)`), both read off the
screen as entered. -/
def candidateActions (m : AppModel W) (w : W) (maxActions : Nat) : List CandAction :=
  (collectButtonLabels m w maxActions).map (fun p => CandAction.tapButton p.1 p.2) ++
  (List.range (min (m.cellInfos w).length 10)).filterMap (fun i =>
    let c := cellAt m w i
    if c.elExists && c.isHittable then some (CandAction.tapCell i) else none)

/-- The navigation-exit labels the spec says are excluded from the regular
buttons ("Cancel"/"Close"/"Done"); the source additionally skips "Back". -/
def specSkipLabels : List String := ["Cancel", "Close", "Done"]

/-- The candidate enumeration exactly as the spec sentence states it, written
for comparison with `candidateActions`: tab-bar buttons first, then regular
buttons excluding "Cancel"/"Close"/"Done", then list cells, then a
swipe-left/swipe-right probe pair when the screen has no tab bar. -/
def specCandidateActions (m : AppModel W) (w : W) (maxActions : Nat) : List CandAction :=
  (List.range (m.tabBarButtons w).length).map CandAction.tapTab ++
  ((List.range (min (m.buttonInfos w).length maxActions)).filterMap (fun i =>
    let b := btnAt m w i
    if b.elExists && b.isHittable && !(b.label == "") && !(specSkipLabels.contains b.label)
    then some (CandAction.tapButton i b.label) else none)) ++
  ((List.range (min (m.cellInfos w).length 10)).filterMap (fun i =>
    let c := cellAt m w i
    if c.elExists && c.isHittable then some (CandAction.tapCell i) else none)) ++
  (if (m.tabBarButtons w).isEmpty then [CandAction.swipeLeftProbe, CandAction.swipeRightProbe] else [])

/-
Hybrid capture (src/appshots/hybrid.py).
-/

/-- One screen entry of the YAML config that `HybridCapture.capture` parses.
`reachable = none` models an entry without a `reachable` key; `reason = none`
models a missing `reason` key.  (The YAML values are modelled as booleans and
strings.) -/
structure ScreenEntry where
  name : String
  reachable : Option Bool
  reason : Option String
deriving DecidableEq

/-- Python `s.get("reachable", True)` (hybrid.py lines 503-504). -/
def entryReachable (s : ScreenEntry) : Bool := s.reachable.getD true

/-- `reachable = [s for s in screens if s.get("reachable", True)]`: the list
handed to `XCTestCapture.capture_all` (hybrid.py lines 503 and 524). -/
def reachableScreens (screens : List ScreenEntry) : List ScreenEntry :=
  screens.filter (fun s => entryReachable s)

/-- `unreachable = [s for s in screens if not s.get("reachable", True)]`
(hybrid.py line 504). -/
def unreachableScreens (screens : List ScreenEntry) : List ScreenEntry :=
  screens.filter (fun s => !(entryReachable s))

/-- The log lines emitted for unreachable screens (hybrid.py lines 506-509):
each entry's name paired with `s.get("reason", "unknown")`. -/
def unreachableReport (screens : List ScreenEntry) : List (String × String) :=
  (unreachableScreens screens).map (fun s => (s.name, s.reason.getD "unknown"))

/-
Preference values and per-value simctl type dispatch
(src/appshots/explorer.py set_defaults, src/appshots/xctest_capture.py
set_simulator_defaults).
-/

/-- A Python value written to UserDefaults.  `pyfloat` and `pystr` carry the
`str(value)` rendering of the value, which is the only thing the dispatch
reads of them; `pystr` stands for any value that is not a bool, int or
float. -/
inductive PyValue where
  | pybool (b : Bool)
  | pyint (n : Int)
  | pyfloat (r : String)
  | pystr (s : String)
deriving DecidableEq

/-- Python `isinstance(value, bool)`. -/
def isinstanceBool : PyValue → Bool
  | .pybool _ => true
  | _ => false

/-- Python `isinstance(value, int)`: note that Python `bool` is a subclass of
`int`, so this is also true of booleans. -/
def isinstanceInt : PyValue → Bool
  | .pybool _ => true
  | .pyint _ => true
  | _ => false

/-- Python `isinstance(value, float)`. -/
def isinstanceFloat : PyValue → Bool
  | .pyfloat _ => true
  | _ => false

/-- Python `str(value)`. -/
def pyStr : PyValue → String
  | .pybool b => if b then "True" else "False"
  | .pyint n => toString n
  | .pyfloat r => r
  | .pystr s => s

/-- Truthiness of the value in the bool branch (`"YES" if value else "NO"`). -/
def pyBoolVal : PyValue → Bool
  | .pybool b => b
  | _ => false

/-- The if/elif type dispatch shared verbatim by `UIExplorer.set_defaults`
(explorer.py lines 58-66) and `XCTestCapture.set_simulator_defaults`
(xctest_capture.py lines 134-146): the simctl type flag and value string for
one preference value, with the `isinstance(value, bool)` test before the
`isinstance(value, int)` test. -/
def simctlTypeValue (v : PyValue) : String × String :=
  if isinstanceBool v then ("-bool", if pyBoolVal v then "YES" else "NO")
  else if isinstanceInt v then ("-int", pyStr v)
  else if isinstanceFloat v then ("-float", pyStr v)
  else ("-string", pyStr v)

/-- The `xcrun simctl spawn ... defaults write ...` command lines issued by
`UIExplorer.set_defaults` for a defaults mapping, one per key/value pair, in
iteration order. -/
def setDefaultsCmds (deviceUdid bundleId : String)
    (defaults : List (String × PyValue)) : List (List String) :=
  defaults.map (fun kv =>
    let tv := simctlTypeValue kv.2
    ["xcrun", "simctl", "spawn", deviceUdid, "defaults", "write", bundleId,
     kv.1, tv.1, tv.2])

/-- The command lines issued by `XCTestCapture.set_simulator_defaults`: same
per-pair dispatch, with an early return when the mapping is empty
(xctest_capture.py lines 131-133). -/
def setSimulatorDefaultsCmds (deviceUdid bundleId : String)
    (defaults : List (String × PyValue)) : List (List String) :=
  if defaults.isEmpty then []
  else
    defaults.map (fun kv =>
      let tv := simctlTypeValue kv.2
      ["xcrun", "simctl", "spawn", deviceUdid, "defaults", "write", bundleId,
       kv.1, tv.1, tv.2])

/-
World states (src/appshots/explorer.py UIExplorer.explore and
src/appshots/hybrid.py HybridCapture.analyze_source).
-/

/-- A UserDefaults mapping, in Python-dict iteration order. -/
abbrev WorldState := List (String × PyValue)

/-- The defaults-state list `UIExplorer.explore` iterates over (explorer.py
lines 462-463): `[{}]` when the caller passed `None`, otherwise exactly the
supplied list. -/
def defaultsStatesOrDefault (supplied : Option (List WorldState)) : List WorldState :=
  match supplied with
  | none => [[]]
  | some l => l

/-- Python `frozenset(d.items()) == frozenset(e.items())`: equality of the
key/value pair sets. -/
def dictItemsSetEq (a b : WorldState) : Bool :=
  a.all (fun kv => b.contains kv) && b.all (fun kv => a.contains kv)

/-- One iteration of the state-collection loop of
`HybridCapture.analyze_source` (hybrid.py lines 176-186), folding over the
`defaults` mapping of each screen: skip empty mappings and mappings whose
item set was already seen, otherwise append to both the state list and the
seen-key list. -/
def analyzeStatesStep (acc : List WorldState × List WorldState) (d : WorldState) :
    List WorldState × List WorldState :=
  if d.isEmpty then acc
  else if acc.2.any (fun k => dictItemsSetEq k d) then acc
  else (acc.1 ++ [d], acc.2 ++ [d])

/-- The `states` list built by `HybridCapture.analyze_source` from the
screens' `defaults` mappings: it starts as `[{}]` (with `frozenset()` seen)
and appends each new non-empty mapping. -/
def analyzeStates (screenDefaults : List WorldState) : List WorldState :=
  (screenDefaults.foldl analyzeStatesStep ([[]], [[]])).1

/-
WorldState passes (src/appshots/explorer.py UIExplorer.explore, lines
473-498).
-/

/-- What one WorldState pass of `UIExplorer.explore` can do in the model:
whether every `set_defaults` preference write succeeds (each is a `run_cmd`
with `check=True`, raising `RuntimeError` on failure), the success flag of
the `xcodebuild test-without-building` run (its `run_cmd` uses `check=False`,
so this flag is ignored by control flow), and the screenshot files found in
the output directory after the run. -/
structure PassSpec where
  setDefaultsOk : Bool
  testRunOk : Bool
  shots : List String
deriving DecidableEq

/-- `run_exploration` (explorer.py lines 420-440): returns the test run's
success flag together with the collected screenshots; the flag is never
inspected by the caller. -/
def runExplorationResult (p : PassSpec) : Bool × List String :=
  (p.testRunOk, p.shots)

/-- The per-state loop of `UIExplorer.explore` (explorer.py lines 473-498):
for each defaults state, clear defaults (check=False), write the defaults
(check=True: a failure raises and aborts the whole call, modelled as
`Except.error`), terminate the app (check=False), run the exploration test
(check=False: its success flag is ignored), and append the pass's screenshots
to the accumulated result list. -/
def explorePasses : List PassSpec → List String → Except String (List String)
  | [], acc => .ok acc
  | p :: rest, acc =>
    if p.setDefaultsOk then
      explorePasses rest (acc ++ (runExplorationResult p).2)
    else .error "Command failed"

/-
Concrete application models used by witnesses and counterexamples.  Worlds
are natural numbers; the tables below give each world's observable elements.
-/

/-- A non-existing element (what out-of-scope XCUITest queries return). -/
def noElem : ElemInfo := { elExists := false, isHittable := false, label := "" }

/-- A small two-screen app: world 0 is "Home" with one button "Go" and one
cell; tapping anything leads to world 1 "Child", whose leading nav-bar button
goes back to 0.  Swipes do nothing; a relaunch lands on 0. -/
def mSimple : AppModel Nat where
  staticTextLabels := fun w => if w = 0 then ["Home"] else ["Child"]
  buttonInfos := fun w =>
    if w = 0 then [{ elExists := true, isHittable := true, label := "Go" }] else []
  cellInfos := fun w =>
    if w = 0 then [{ elExists := true, isHittable := true, label := "Item" }] else []
  tabBarButtons := fun _ => []
  tapButton := fun _ _ => 1
  tapCell := fun _ _ => 1
  navBarFirstButton := fun w =>
    if w = 1 then { elExists := true, isHittable := true, label := "Back" } else noElem
  tapNavBarFirstButton := fun _ => 0
  closeButton := fun _ => noElem
  tapCloseButton := fun w => w
  xmarkButton := fun _ => noElem
  tapXmarkButton := fun w => w
  swipeDown := fun w => w
  swipeLeft := fun w => w
  swipeRight := fun w => w
  relaunch := fun _ => 0

/-- An app where recovery fails: world 0 is the parent, world 1 a child with
no back affordance at all, so `tryGoBack` swipes down, landing on world 2
whose fingerprint still differs from the parent's; the relaunch then lands on
world 3, the root, whose fingerprint differs from the parent's too. -/
def mStuck : AppModel Nat where
  staticTextLabels := fun w =>
    if w = 0 then ["Parent"] else if w = 1 then ["Child"]
    else if w = 2 then ["StillChild"] else ["Root"]
  buttonInfos := fun _ => []
  cellInfos := fun _ => []
  tabBarButtons := fun _ => []
  tapButton := fun w _ => w
  tapCell := fun w _ => w
  navBarFirstButton := fun _ => noElem
  tapNavBarFirstButton := fun w => w
  closeButton := fun _ => noElem
  tapCloseButton := fun w => w
  xmarkButton := fun _ => noElem
  tapXmarkButton := fun w => w
  swipeDown := fun _ => 2
  swipeLeft := fun w => w
  swipeRight := fun w => w
  relaunch := fun _ => 3

/-- An app with a tab bar, a hittable "Back" button and a hittable regular
button, used to compare the code's candidate enumeration with the spec's. -/
def mTabbed : AppModel Nat where
  staticTextLabels := fun _ => ["Home"]
  buttonInfos := fun _ =>
    [{ elExists := true, isHittable := true, label := "Back" },
     { elExists := true, isHittable := true, label := "Go" }]
  cellInfos := fun _ => []
  tabBarButtons := fun _ => [{ elExists := true, isHittable := true, label := "Feed" }]
  tapButton := fun w _ => w
  tapCell := fun w _ => w
  navBarFirstButton := fun _ => noElem
  tapNavBarFirstButton := fun w => w
  closeButton := fun _ => noElem
  tapCloseButton := fun w => w
  xmarkButton := fun _ => noElem
  tapXmarkButton := fun w => w
  swipeDown := fun w => w
  swipeLeft := fun w => w
  swipeRight := fun w => w
  relaunch := fun w => w

/-- Twenty static-text labels, the exact size of the static-text prefix that
`screenHash` inspects. -/
def labels20 : List String :=
  ["t01", "t02", "t03", "t04", "t05", "t06", "t07", "t08", "t09", "t10",
   "t11", "t12", "t13", "t14", "t15", "t16", "t17", "t18", "t19", "t20"]

/-- An app whose worlds 0 and 1 agree on the first 20 static texts and all
button labels but differ in the 21st static text, so they are different
screens with equal hashed label prefixes. -/
def mPrefix : AppModel Nat where
  staticTextLabels := fun w => labels20 ++ [if w = 0 then "X" else "Y"]
  buttonInfos := fun _ => []
  cellInfos := fun _ => []
  tabBarButtons := fun _ => []
  tapButton := fun w _ => w
  tapCell := fun w _ => w
  navBarFirstButton := fun _ => noElem
  tapNavBarFirstButton := fun w => w
  closeButton := fun _ => noElem
  tapCloseButton := fun w => w
  xmarkButton := fun _ => noElem
  tapXmarkButton := fun w => w
  swipeDown := fun w => w
  swipeLeft := fun w => w
  swipeRight := fun w => w
  relaunch := fun w => w

/-- A YAML screen entry with no `reachable` key. -/
def entryHome : ScreenEntry := { name := "Home", reachable := none, reason := none }

/-- A YAML screen entry explicitly marked reachable. -/
def entryFeed : ScreenEntry := { name := "Feed", reachable := some true, reason := none }

/-- A YAML screen entry marked unreachable, with a reason. -/
def entryPaywall : ScreenEntry :=
  { name := "Paywall", reachable := some false, reason := some "premium required" }

/-- A screen list mixing the three kinds of entries. -/
def screensExample : List ScreenEntry := [entryHome, entryFeed, entryPaywall]

/-- A WorldState pass that fully succeeds and yields one screenshot. -/
def okPassA : PassSpec :=
  { setDefaultsOk := true, testRunOk := true, shots := ["state0_01-initial.png"] }

/-- A WorldState pass whose preference write fails (its `run_cmd` raises). -/
def failWritePass : PassSpec :=
  { setDefaultsOk := false, testRunOk := true, shots := [] }

/-- A WorldState pass whose exploration test run fails; the driver ignores
the returncode and finds no screenshots for it. -/
def failTestPass : PassSpec :=
  { setDefaultsOk := true, testRunOk := false, shots := [] }

/-- A later WorldState pass that fully succeeds. -/
def okPassB : PassSpec :=
  { setDefaultsOk := true, testRunOk := true, shots := ["state2_01-initial.png"] }

/-- The bookkeeping invariant of the generated test's state: the screen count
equals the number of saved screens, it never exceeds the cap, the saved
fingerprints are pairwise distinct, and every saved fingerprint is in the
seen set. -/
def EInv (s : EState) : Prop :=
  s.screenCount = s.recorded.length ∧
  s.screenCount ≤ maxScreens ∧
  (s.recorded.map (fun p => p.2)).Nodup ∧
  ∀ p ∈ s.recorded, p.2 ∈ s.seenHashes

theorem einv_initial : EInv initialEState := by
  refine ⟨rfl, by norm_num [initialEState, maxScreens], by simp [initialEState], ?_⟩
  simp [initialEState]

theorem einv_record (m : AppModel W) (w : W) (s : EState) (c : String)
    (h : EInv s) : EInv (recordScreenIfNew m w s c).1 := by
  obtain ⟨hc, hle, hnd, hsub⟩ := h
  by_cases h1 : screenHash m w ∈ s.seenHashes
  · simp only [recordScreenIfNew, if_pos h1]
    exact ⟨hc, hle, hnd, hsub⟩
  · by_cases h2 : maxScreens ≤ s.screenCount
    · simp only [recordScreenIfNew, if_neg h1, if_pos h2]
      exact ⟨hc, hle, hnd, hsub⟩
    · simp only [recordScreenIfNew, if_neg h1, if_neg h2]
      have hnotin : screenHash m w ∉ s.recorded.map (fun p => p.2) := by
        intro hmem
        rcases List.mem_map.1 hmem with ⟨p, hp, hph⟩
        exact h1 (hph ▸ hsub p hp)
      refine ⟨?_, ?_, ?_, ?_⟩
      · simp [hc]
      · show s.screenCount + 1 ≤ maxScreens
        omega
      · simp [List.nodup_append, hnd, hnotin]
      · intro p hp
        rcases List.mem_append.1 hp with hp | hp
        · exact List.mem_append_left _ (hsub p hp)
        · simp only [List.mem_singleton] at hp
          subst hp
          exact List.mem_append_right _ (by simp)

theorem foldl_preserves {α β : Type _} (P : β → Prop) (f : β → α → β)
    (hf : ∀ b a, P b → P (f b a)) :
    ∀ (l : List α) (b : β), P b → P (l.foldl f b) := by
  intro l
  induction l with
  | nil => intro b hb; simpa using hb
  | cons a t ih =>
    intro b hb
    simpa using ih (f b a) (hf b a hb)

theorem buttonStep_einv (m : AppModel W) (r : W → EState → W × EState)
    (hr : ∀ (w : W) (s : EState), EInv s → EInv (r w s).2) (hb : String)
    (fr : Frame W) (item : Nat × String) (h : EInv fr.s) :
    EInv (buttonStep m r hb fr item).s := by
  simp only [buttonStep]
  split_ifs with h1 h2 h3 h4
  · exact h
  · exact h
  · exact hr _ _ (einv_record m _ _ _ h)
  · exact h
  · exact h

theorem cellStep_einv (m : AppModel W) (hb : String)
    (fr : Frame W) (i : Nat) (h : EInv fr.s) :
    EInv (cellStep m hb fr i).s := by
  simp only [cellStep]
  split_ifs with h1 h2 h3 h4
  · exact h
  · exact h
  · exact einv_record m _ _ _ h
  · exact h
  · exact h

theorem exploreGo_einv (m : AppModel W) (maxActions maxDepth : Nat) :
    ∀ (fuel depth : Nat) (w : W) (s : EState), EInv s →
      EInv (exploreGo m maxActions maxDepth fuel depth w s).2 := by
  intro fuel
  induction fuel with
  | zero => intro depth w s h; simpa [exploreGo] using h
  | succ n ih =>
    intro depth w s h
    simp only [exploreGo]
    have hfr1 : EInv ((collectButtonLabels m w maxActions).foldl
        (buttonStep m (fun w' s' => exploreGo m maxActions maxDepth n (depth + 1) w' s') (screenHash m w))
        { w := w, s := s, early := false }).s :=
      foldl_preserves (fun fr : Frame W => EInv fr.s) _
        (fun b a hbp => buttonStep_einv m _ (fun w' s' hs => ih (depth + 1) w' s' hs) _ b a hbp)
        _ _ h
    split_ifs with h1 h2 h3
    · exact hfr1
    · exact foldl_preserves (fun fr : Frame W => EInv fr.s) _
        (fun b a hbp => cellStep_einv m _ b a hbp) _ _ hfr1
    · exact h
    · exact h

theorem exploreCurrentScreen_einv (m : AppModel W) (maxActions maxDepth depth : Nat)
    (w : W) (s : EState) (h : EInv s) :
    EInv (exploreCurrentScreen m maxActions maxDepth depth w s).2 :=
  exploreGo_einv m maxActions maxDepth _ depth w s h

theorem testExplore_einv (m : AppModel W) (maxDepth maxActions : Nat) (w0 : W) :
    EInv (testExplore m maxDepth maxActions w0).2 := by
  have hstart : EInv (recordScreenIfNew m w0 initialEState "initial").1 :=
    einv_record m _ _ _ einv_initial
  have hrec0 := exploreCurrentScreen_einv m maxActions maxDepth 0 w0 _ hstart
  simp only [testExplore]
  split_ifs with ha hb hc
  · exact exploreCurrentScreen_einv m maxActions maxDepth 1 _ _
      (einv_record m _ _ _ (exploreCurrentScreen_einv m maxActions maxDepth 1 _ _
        (einv_record m _ _ _ hrec0)))
  · exact exploreCurrentScreen_einv m maxActions maxDepth 1 _ _
      (einv_record m _ _ _ hrec0)
  · exact exploreCurrentScreen_einv m maxActions maxDepth 1 _ _ (einv_record m _ _ _ hrec0)
  · exact hrec0

/-- C1: Dedup invariant — within one run of the generated explorer test,
no two retained Screens share a fingerprint: `recordScreenIfNew` saves a
screen (screenshot plus element list, incrementing `screenCount`) only when
the screen's hash is not already in `seenHashes`, so the screens recorded by
a completed `test_explore` pass have pairwise-distinct fingerprints. -/
theorem dedup_invariant_crawl (m : AppModel W) (maxDepth maxActions : Nat) (w0 : W) :
    List.Pairwise (fun p q : String × String => p.2 ≠ q.2)
      (testExplore m maxDepth maxActions w0).2.recorded := by
  have h := (testExplore_einv m maxDepth maxActions w0).2.2.1
  exact List.pairwise_map.mp h

theorem dedup_invariant_crawl_witness :
    List.Pairwise (fun p q : String × String => p.2 ≠ q.2)
      (testExplore mSimple 3 15 0).2.recorded :=
  dedup_invariant_crawl mSimple 3 15 0

/-- C2: Caps respected — in every exploration pass the number of Screens
recorded never exceeds `maxScreens` (30 in the generated test), and
`exploreCurrentScreen` is a no-op at any recursion depth of `maxDepth` or
more, so the crawl never acts beyond the configured depth. -/
theorem caps_respected (m : AppModel W) (maxDepth maxActions : Nat) (w0 : W) :
    (testExplore m maxDepth maxActions w0).2.screenCount ≤ maxScreens ∧
    (testExplore m maxDepth maxActions w0).2.recorded.length ≤ maxScreens ∧
    ∀ (fuel depth : Nat) (w : W) (s : EState), maxDepth ≤ depth →
      exploreGo m maxActions maxDepth fuel depth w s = (w, s) ∧
      exploreCurrentScreen m maxActions maxDepth depth w s = (w, s) := by
  obtain ⟨hc, hle, _, _⟩ := testExplore_einv m maxDepth maxActions w0
  refine ⟨hle, hc ▸ hle, ?_⟩
  intro fuel depth w s hdep
  have hgo : ∀ f, exploreGo m maxActions maxDepth f depth w s = (w, s) := by
    intro f
    cases f with
    | zero => rfl
    | succ n => simp only [exploreGo, if_neg (Nat.not_lt.mpr hdep)]
  exact ⟨hgo fuel, hgo _⟩

theorem caps_respected_witness :
    (3 : Nat) ≤ 3 ∧
    exploreGo mSimple 15 3 2 3 0 initialEState = (0, initialEState) ∧
    exploreCurrentScreen mSimple 15 3 3 0 initialEState = (0, initialEState) :=
  ⟨by decide,
   ((caps_respected mSimple 3 15 0).2.2 2 3 0 initialEState (by decide)).1,
   ((caps_respected mSimple 3 15 0).2.2 2 3 0 initialEState (by decide)).2⟩

/-- C3: Fingerprint determinism — `screenHash` is a pure function of the
bounded ordered label prefix (first 20 static-text labels followed by the
first 10 button labels): any two snapshots, even of different apps, with
identical such prefixes hash to the same string. -/
theorem fingerprint_deterministic {W1 W2 : Type} (m1 : AppModel W1) (m2 : AppModel W2)
    (w1 : W1) (w2 : W2)
    (ht : (m1.staticTextLabels w1).take 20 = (m2.staticTextLabels w2).take 20)
    (hb : ((m1.buttonInfos w1).map (fun b => b.label)).take 10
        = ((m2.buttonInfos w2).map (fun b => b.label)).take 10) :
    screenHash m1 w1 = screenHash m2 w2 := by
  simp only [screenHash, screenHashOfLabels, ht, hb]

theorem fingerprint_deterministic_witness :
    (mPrefix.staticTextLabels 0).take 20 = (mPrefix.staticTextLabels 1).take 20 ∧
    mPrefix.staticTextLabels 0 ≠ mPrefix.staticTextLabels 1 ∧
    screenHash mPrefix 0 = screenHash mPrefix 1 :=
  ⟨by decide, by decide,
   fingerprint_deterministic mPrefix mPrefix 0 1 (by decide) (by decide)⟩

/-- C6: No-op action idempotence — when a candidate's post-action fingerprint
equals the fingerprint captured before the action (the `hashBefore` taken at
screen entry), the engine records nothing and does not recurse: the button
iteration's result does not depend on the recursive call at all and leaves
the test state untouched, and the cell iteration likewise leaves the test
state untouched. -/
theorem noop_action_guard (m : AppModel W) (w : W) (s : EState) (idx : Nat)
    (label : String) (i : Nat) (hashBefore : String)
    (hbtn : screenHash m (m.tapButton w idx) = hashBefore)
    (hcell : screenHash m (m.tapCell w i) = hashBefore) :
    (∀ r r' : W → EState → W × EState,
      buttonStep m r hashBefore { w := w, s := s, early := false } (idx, label)
        = buttonStep m r' hashBefore { w := w, s := s, early := false } (idx, label)) ∧
    (∀ r : W → EState → W × EState,
      (buttonStep m r hashBefore { w := w, s := s, early := false } (idx, label)).s = s) ∧
    (cellStep m hashBefore { w := w, s := s, early := false } i).s = s := by
  refine ⟨?_, ?_, ?_⟩
  · intro r r'
    simp [buttonStep, hbtn]
  · intro r
    simp [buttonStep, hbtn]
    split_ifs <;> rfl
  · simp [cellStep, hcell]
    split_ifs <;> rfl

theorem noop_action_guard_witness :
    (∀ r r' : Nat → EState → Nat × EState,
      buttonStep mSimple r (screenHash mSimple 1) { w := 0, s := initialEState, early := false } (0, "Go")
        = buttonStep mSimple r' (screenHash mSimple 1) { w := 0, s := initialEState, early := false } (0, "Go")) ∧
    (∀ r : Nat → EState → Nat × EState,
      (buttonStep mSimple r (screenHash mSimple 1) { w := 0, s := initialEState, early := false } (0, "Go")).s
        = initialEState) ∧
    (cellStep mSimple (screenHash mSimple 1) { w := 0, s := initialEState, early := false } 0).s
      = initialEState :=
  noop_action_guard mSimple 0 initialEState 0 "Go" 0 (screenHash mSimple 1) rfl rfl

/-- C4 counterexample: in `mStuck`, after entering the child screen (world 1)
from the parent (world 0) and running recovery, the observed fingerprint
differs from the parent's, the relaunch branch fires, the recovery result is
exactly the bare relaunched world (no action-path replay, no saving or
logging happens in the block), and even the relaunched world's fingerprint
differs from the parent's — so neither disjunct of the claim holds. -/
theorem recovery_convergence_cex :
    screenHash mStuck (tryGoBack mStuck 1) ≠ screenHash mStuck 0 ∧
    (recoverAfterChild mStuck 1 (screenHash mStuck 0)).2 = true ∧
    (recoverAfterChild mStuck 1 (screenHash mStuck 0)).1
      = mStuck.relaunch (tryGoBack mStuck 1) ∧
    screenHash mStuck ((recoverAfterChild mStuck 1 (screenHash mStuck 0)).1)
      ≠ screenHash mStuck 0 :=
  ⟨by decide, by decide, by decide, by decide⟩

/-- C4 (amended): after the engine enters a child screen (the tap changed the
fingerprint), the button iteration records the child, recurses, and then runs
exactly the recovery block, whose result state is the recursion's state with
nothing further saved; and for every post-recursion world, either the
fingerprint observed after `tryGoBack` equals the fingerprint captured at
entry to the parent and no relaunch happens, or it differs and the app is
bare-relaunched (terminate plus launch, with no action-path replay and no log
entry). -/
theorem recovery_after_child (m : AppModel W) (r : W → EState → W × EState)
    (hashBefore : String) (w : W) (s : EState) (idx : Nat) (label : String)
    (hex : (btnAt m w idx).elExists = true)
    (hhit : (btnAt m w idx).isHittable = true)
    (hchanged : screenHash m (m.tapButton w idx) ≠ hashBefore)
    (hcap : s.screenCount < maxScreens) :
    buttonStep m r hashBefore { w := w, s := s, early := false } (idx, label)
      = { w := (recoverAfterChild m (r (m.tapButton w idx)
              (recordScreenIfNew m (m.tapButton w idx) s ("tap-" ++ btnSafeName label)).1).1
              hashBefore).1,
          s := (r (m.tapButton w idx)
              (recordScreenIfNew m (m.tapButton w idx) s ("tap-" ++ btnSafeName label)).1).2,
          early := false } ∧
    ∀ wc : W,
      (screenHash m (tryGoBack m wc) = hashBefore ∧
        recoverAfterChild m wc hashBefore = (tryGoBack m wc, false)) ∨
      (screenHash m (tryGoBack m wc) ≠ hashBefore ∧
        recoverAfterChild m wc hashBefore = (m.relaunch (tryGoBack m wc), true)) := by
  have hnc : ¬ maxScreens ≤ s.screenCount := Nat.not_le.mpr hcap
  constructor
  · simp [buttonStep, hex, hhit, hchanged, hnc]
  · intro wc
    by_cases hw : screenHash m (tryGoBack m wc) = hashBefore
    · exact Or.inl ⟨hw, by simp [recoverAfterChild, hw]⟩
    · exact Or.inr ⟨hw, by simp [recoverAfterChild, hw]⟩

theorem recovery_after_child_witness :
    (btnAt mSimple 0 0).elExists = true ∧
    (btnAt mSimple 0 0).isHittable = true ∧
    screenHash mSimple (mSimple.tapButton 0 0) ≠ "" ∧
    initialEState.screenCount < maxScreens ∧
    ∀ wc : Nat,
      (screenHash mSimple (tryGoBack mSimple wc) = "" ∧
        recoverAfterChild mSimple wc "" = (tryGoBack mSimple wc, false)) ∨
      (screenHash mSimple (tryGoBack mSimple wc) ≠ "" ∧
        recoverAfterChild mSimple wc "" = (mSimple.relaunch (tryGoBack mSimple wc), true)) :=
  ⟨by decide, by decide, by decide, by decide,
   (recovery_after_child mSimple (fun w s => (w, s)) "" 0 initialEState 0 "Go"
      (by decide) (by decide) (by decide) (by decide)).2⟩

/-- C5 counterexample: on the `mTabbed` screen, the code's candidate
enumeration neither starts with the tab-bar buttons nor keeps "Back"-labelled
buttons nor appends a swipe probe pair, while the enumeration written from
the spec's sentence does — the two lists differ. -/
theorem candidate_priority_cex :
    candidateActions mTabbed 0 15 ≠ specCandidateActions mTabbed 0 15 ∧
    candidateActions mTabbed 0 15 = [CandAction.tapButton 1 "Go"] ∧
    specCandidateActions mTabbed 0 15
      = [CandAction.tapTab 0, CandAction.tapButton 0 "Back",
         CandAction.tapButton 1 "Go"] :=
  ⟨by decide, by decide, by decide⟩

/-- C5 (amended): the candidates `exploreCurrentScreen` enumerates on a
screen are exactly of two kinds, in this order: hittable buttons with a
non-empty label not in the skip list "Back"/"Cancel"/"Done"/"Close" among the
first `min(buttons.count, max_actions)` buttons, followed by hittable cells
among the first `min(cells.count, 10)` cells; tab-bar buttons and swipe
probes never appear among them (swipes happen only once at the top level of
`test_explore`, regardless of any tab bar). -/
theorem candidate_enumeration (m : AppModel W) (w : W) (maxActions : Nat) :
    (∀ a ∈ candidateActions m w maxActions,
      (∃ i, a = CandAction.tapButton i (btnAt m w i).label ∧
         (btnAt m w i).elExists = true ∧ (btnAt m w i).isHittable = true ∧
         (btnAt m w i).label ≠ "" ∧ (btnAt m w i).label ∉ skipLabels ∧
         i < min (m.buttonInfos w).length maxActions) ∨
      (∃ i, a = CandAction.tapCell i ∧
         (cellAt m w i).elExists = true ∧ (cellAt m w i).isHittable = true ∧
         i < min (m.cellInfos w).length 10)) ∧
    List.Pairwise (fun a b => a.isTapCell = true → b.isTapCell = true)
      (candidateActions m w maxActions) := by
  constructor
  · intro a ha
    rcases List.mem_append.1 ha with hb | hc
    · left
      rcases List.mem_map.1 hb with ⟨p, hp, rfl⟩
      rcases List.mem_filterMap.1 hp with ⟨i, hi, hsome⟩
      simp only at hsome
      split_ifs at hsome with hcond
      simp only [Bool.and_eq_true, Bool.not_eq_true', beq_eq_false_iff_ne,
        ne_eq] at hcond
      obtain ⟨⟨⟨hex, hhit⟩, hne⟩, hskip⟩ := hcond
      obtain rfl := Option.some.inj hsome
      refine ⟨i, rfl, hex, hhit, hne, ?_, List.mem_range.1 hi⟩
      intro hmem
      have hcontains : skipLabels.contains (btnAt m w i).label = true := by
        simp [List.contains, hmem]
      rw [hcontains] at hskip
      exact absurd hskip (by decide)
    · right
      rcases List.mem_filterMap.1 hc with ⟨i, hi, hsome⟩
      simp only at hsome
      split_ifs at hsome with hcond
      simp only [Bool.and_eq_true] at hcond
      obtain rfl := Option.some.inj hsome
      exact ⟨i, rfl, hcond.1, hcond.2, List.mem_range.1 hi⟩
  · apply List.pairwise_append.2
    refine ⟨?_, ?_, ?_⟩
    · apply List.pairwise_of_forall_mem_list
      intro a ha b hb
      rcases List.mem_map.1 ha with ⟨p, _, rfl⟩
      intro htc
      simp [CandAction.isTapCell] at htc
    · apply List.pairwise_of_forall_mem_list
      intro a ha b hb
      rcases List.mem_filterMap.1 hb with ⟨i, _, hsome⟩
      simp only at hsome
      split_ifs at hsome with hcond
      obtain rfl := Option.some.inj hsome
      intro _
      rfl
    · intro a ha b hb
      rcases List.mem_filterMap.1 hb with ⟨i, _, hsome⟩
      simp only at hsome
      split_ifs at hsome with hcond
      obtain rfl := Option.some.inj hsome
      intro _
      rfl

theorem candidate_enumeration_witness :
    CandAction.tapButton 1 "Go" ∈ candidateActions mTabbed 0 15 ∧
    ((∃ i, CandAction.tapButton 1 "Go" = CandAction.tapButton i (btnAt mTabbed 0 i).label ∧
        (btnAt mTabbed 0 i).elExists = true ∧ (btnAt mTabbed 0 i).isHittable = true ∧
        (btnAt mTabbed 0 i).label ≠ "" ∧ (btnAt mTabbed 0 i).label ∉ skipLabels ∧
        i < min (mTabbed.buttonInfos 0).length 15) ∨
     (∃ i, CandAction.tapButton 1 "Go" = CandAction.tapCell i ∧
        (cellAt mTabbed 0 i).elExists = true ∧ (cellAt mTabbed 0 i).isHittable = true ∧
        i < min (mTabbed.cellInfos 0).length 10)) :=
  ⟨by decide,
   (candidate_enumeration mTabbed 0 15).1 (CandAction.tapButton 1 "Go") (by decide)⟩

/-- C7: Unreachable verdicts surfaced — in `HybridCapture.capture`, every
screen entry whose `reachable` flag is `false` is excluded from the list
handed to the screenshot executor and appears in the report with its name and
a reason string, and every entry without a `reachable` key is treated as
reachable and handed to the executor. -/
theorem unreachable_surfaced (screens : List ScreenEntry) (s : ScreenEntry)
    (hmem : s ∈ screens) :
    (s.reachable = some false →
      s ∉ reachableScreens screens ∧
      (s.name, s.reason.getD "unknown") ∈ unreachableReport screens) ∧
    (s.reachable = none → s ∈ reachableScreens screens) := by
  constructor
  · intro hf
    have hr : entryReachable s = false := by simp [entryReachable, hf]
    constructor
    · intro hin
      have hflag := (List.mem_filter.1 hin).2
      rw [hr] at hflag
      exact absurd hflag (by decide)
    · exact List.mem_map.2 ⟨s, List.mem_filter.2 ⟨hmem, by simp [hr]⟩, rfl⟩
  · intro hn
    exact List.mem_filter.2 ⟨hmem, by simp [entryReachable, hn]⟩

theorem unreachable_surfaced_witness :
    entryPaywall ∈ screensExample ∧
    (entryPaywall ∉ reachableScreens screensExample ∧
      ("Paywall", "premium required") ∈ unreachableReport screensExample) ∧
    (entryHome ∈ screensExample ∧ entryHome ∈ reachableScreens screensExample) :=
  ⟨by decide,
   (unreachable_surfaced screensExample entryPaywall (by decide)).1 rfl,
   by decide,
   (unreachable_surfaced screensExample entryHome (by decide)).2 rfl⟩

/-- C8 counterexample: when `UIExplorer.explore` is given an explicit
non-empty `defaults_states` list, that list is used exactly as supplied — the
empty preference mapping is not added and not explored. -/
theorem empty_worldstate_cex :
    defaultsStatesOrDefault (some [[("onboardingDone", PyValue.pybool true)]])
      = [[("onboardingDone", PyValue.pybool true)]] ∧
    [] ∉ defaultsStatesOrDefault (some [[("onboardingDone", PyValue.pybool true)]]) :=
  ⟨rfl, by decide⟩

/-- C8 (amended): `UIExplorer.explore` substitutes `[{}]` only when the
caller passes `None`, and otherwise iterates exactly the supplied list; it is
the hybrid pipeline's `analyze_source` that always constructs a state list
beginning with the empty mapping. -/
theorem empty_worldstate_policy :
    defaultsStatesOrDefault none = [[]] ∧
    (∀ l : List WorldState, defaultsStatesOrDefault (some l) = l) ∧
    ∀ screenDefaults : List WorldState,
      ∃ rest, analyzeStates screenDefaults = [] :: rest := by
  refine ⟨rfl, fun l => rfl, ?_⟩
  have hstep : ∀ (acc : List WorldState × List WorldState) (d : WorldState),
      ∃ t, (analyzeStatesStep acc d).1 = acc.1 ++ t := by
    intro acc d
    unfold analyzeStatesStep
    split_ifs
    · exact ⟨[], by simp⟩
    · exact ⟨[], by simp⟩
    · exact ⟨[d], rfl⟩
  have hgo : ∀ (l : List WorldState) (acc : List WorldState × List WorldState),
      ∃ t, (l.foldl analyzeStatesStep acc).1 = acc.1 ++ t := by
    intro l
    induction l with
    | nil => intro acc; exact ⟨[], by simp⟩
    | cons d tl ih =>
      intro acc
      rcases ih (analyzeStatesStep acc d) with ⟨t, ht⟩
      rcases hstep acc d with ⟨t0, ht0⟩
      refine ⟨t0 ++ t, ?_⟩
      simp only [List.foldl_cons, ht, ht0, List.append_assoc]
  intro screenDefaults
  rcases hgo screenDefaults ([[]], [[]]) with ⟨t, ht⟩
  exact ⟨t, by simpa using ht⟩

/-- C9 counterexample: a failing preference write (`set_defaults` runs its
command with `check=True`) raises out of `UIExplorer.explore`, so the pass
after it never runs and the screenshots collected by the pass before it are
not returned — while the same passes succeed when run without the failing
one. -/
theorem pass_independence_cex :
    explorePasses [okPassA, failWritePass, okPassB] [] = .error "Command failed" ∧
    explorePasses [okPassA, okPassB] []
      = .ok ["state0_01-initial.png", "state2_01-initial.png"] :=
  ⟨rfl, rfl⟩

/-- C9 (amended): as long as every preference write succeeds, the passes are
independent of their exploration test runs' outcomes — `run_cmd` is invoked
with `check=False` for the test run, so a failing exploration run does not
block subsequent passes, and the screenshots of every pass (earlier and
later) are all present in the returned list. -/
theorem pass_independence (ps : List PassSpec) (acc : List String)
    (h : ∀ p ∈ ps, p.setDefaultsOk = true) :
    explorePasses ps acc = .ok (acc ++ ps.flatMap (fun p => p.shots)) := by
  induction ps generalizing acc with
  | nil => simp [explorePasses]
  | cons p t ih =>
    have hp : p.setDefaultsOk = true := h p (List.mem_cons_self p t)
    have ht : ∀ q ∈ t, q.setDefaultsOk = true := fun q hq => h q (List.mem_cons_of_mem p hq)
    simp only [explorePasses, hp, if_true, runExplorationResult]
    rw [ih _ ht]
    simp

theorem pass_independence_witness :
    (∀ p ∈ ([okPassA, failTestPass, okPassB] : List PassSpec), p.setDefaultsOk = true) ∧
    explorePasses [okPassA, failTestPass, okPassB] []
      = .ok ([] ++ [okPassA, failTestPass, okPassB].flatMap (fun p => p.shots)) :=
  ⟨by decide, pass_independence [okPassA, failTestPass, okPassB] [] (by decide)⟩

/-- C10: preference serialization by type — the simctl type flag is chosen by
the value's Python type with the `bool` test before the `int` test: a bool is
written `-bool YES`/`-bool NO` and never `-int` even though
`isinstance(value, int)` is true of Python bools, a non-bool int is written
`-int str(value)`, a float `-float str(value)`, anything else
`-string str(value)`; `set_simulator_defaults` issues exactly the same
commands as `set_defaults` for every mapping. -/
theorem bool_before_int_dispatch :
    (∀ b : Bool, simctlTypeValue (.pybool b) = ("-bool", if b then "YES" else "NO")) ∧
    (∀ b : Bool, isinstanceInt (.pybool b) = true) ∧
    (∀ b : Bool, (simctlTypeValue (.pybool b)).1 ≠ "-int") ∧
    (∀ n : Int, simctlTypeValue (.pyint n) = ("-int", toString n)) ∧
    (∀ r : String, simctlTypeValue (.pyfloat r) = ("-float", r)) ∧
    (∀ s : String, simctlTypeValue (.pystr s) = ("-string", s)) ∧
    (∀ (u b : String) (defaults : List (String × PyValue)),
      setSimulatorDefaultsCmds u b defaults = setDefaultsCmds u b defaults) := by
  refine ⟨?_, ?_, ?_, ?_, ?_, ?_, ?_⟩
  · intro b
    simp [simctlTypeValue, isinstanceBool, pyBoolVal]
  · intro b
    rfl
  · intro b
    simp [simctlTypeValue, isinstanceBool, pyBoolVal]
  · intro n
    simp [simctlTypeValue, isinstanceBool, isinstanceInt, pyStr]
  · intro r
    simp [simctlTypeValue, isinstanceBool, isinstanceInt, isinstanceFloat, pyStr]
  · intro s
    simp [simctlTypeValue, isinstanceBool, isinstanceInt, isinstanceFloat, pyStr]
  · intro u b defaults
    unfold setSimulatorDefaultsCmds setDefaultsCmds
    split_ifs with h
    · rw [List.isEmpty_iff.1 h]
      rfl
    · rfl

theorem bool_before_int_dispatch_witness :
    simctlTypeValue (.pybool true) = ("-bool", "YES") ∧
    (simctlTypeValue (.pybool true)).1 ≠ "-int" ∧
    setSimulatorDefaultsCmds "UDID" "com.example.app" [("premium", PyValue.pybool true)]
      = setDefaultsCmds "UDID" "com.example.app" [("premium", PyValue.pybool true)] :=
  ⟨bool_before_int_dispatch.1 true,
   bool_before_int_dispatch.2.2.1 true,
   bool_before_int_dispatch.2.2.2.2.2.2 "UDID" "com.example.app"
     [("premium", PyValue.pybool true)]⟩

theorem empty_worldstate_policy_witness :
    defaultsStatesOrDefault none = [[]] ∧
    ∃ rest, analyzeStates [[("premium", PyValue.pybool true)]] = [] :: rest :=
  ⟨empty_worldstate_policy.1,
   empty_worldstate_policy.2.2 [[("premium", PyValue.pybool true)]]⟩

end AppShots
